import Mathlib

/-!
Verification of the photo collection cache and rotation engine of
darkobits/frontlawn-website.

Embedded source files:
 - lib/photos.ts (getPhotos, fetchAndUpdateCollection, preloadImage)
 - components/splash.tsx (componentDidMount, enableKeyboardShortcuts,
   preloadNeighboringPhotos, getPhoto)

Helpers that the repository keeps outside the embedded tree (lib/utils
modIndex, lib/time sinceEpoch, etc/constants CACHE_TTL) and the third-party
shuffle-seed package are modelled from the specification, as noted on each
definition.
-/

namespace Frontlawn

/-- A photo record as used by the client: identity, dominant color and the
full-size image URL (etc/types UnsplashPhotoResource, projected to the fields
the core reads). -/
structure UnsplashPhotoResource where
  id : String
  color : String
  urlFull : String
deriving DecidableEq

/-- The cache entry persisted under the photoCollection key
(interface CollectionCache in lib/photos.ts). -/
structure CollectionCache where
  photos : List UnsplashPhotoResource
  updatedAt : Nat
deriving DecidableEq

/-- The persistent key-value store, projected to the two keys the core
touches: the photoCollection cache entry and the client identity under the
name key. A missing key is none; storage.keys() containing the collection
key corresponds to photoCollection.isSome. -/
structure Store where
  photoCollection : Option CollectionCache
  name : Option String
deriving DecidableEq

/-- Failure of the remote fetch (a rejection of client.get, the condition the
spec calls SourceUnavailable when no cache exists). -/
inductive RemoteError where
  | sourceUnavailable (msg : String)
deriving DecidableEq

/-- The environment of one execution of getPhotos or of one background
refetch: the outcome the remote source would produce, the current clock in
milliseconds, the configured TTL in milliseconds (ms(CACHE_TTL)), and whether
the best-effort storage.setItem write succeeds. -/
structure Env where
  remote : Except RemoteError (List UnsplashPhotoResource)
  now : Nat
  ttlMs : Nat
  setItemOk : Bool

/-- Modelled from the spec: the third-party deterministic PRNG behind
shuffle-seed (seedrandom) is not part of this repository; any deterministic
seed-indexed stream satisfies the contract, so a simple string-hash driven
stream stands in for it. -/
def rngOfSeed (seed : String) : Nat → Nat :=
  fun step => (seed.foldl (fun h c => h * 31 + c.toNat) 7) * (step + 1) + step

/-- Modelled from the spec: the selection loop of the third-party
shuffle-seed package. At each step one position of the remaining key list is
chosen by the seeded stream, removed, and its element emitted. -/
def drawAll (rng : Nat → Nat) (step : Nat) : List α → List α
  | [] => []
  | a :: rest =>
    let keys := a :: rest
    let r := rng step % keys.length
    keys.getD r a :: drawAll rng (step + 1) (keys.eraseIdx r)
termination_by l => l.length
decreasing_by
  have hr : rng step % (a :: rest).length < (a :: rest).length :=
    Nat.mod_lt _ (by simp)
  rw [List.length_eraseIdx_of_lt hr]
  simp

/-- Modelled from the spec: shuffle(collection, seed), a deterministic
seed-driven total reordering (shuffle-seed is a third-party dependency; the
spec fixes only determinism and the permutation property). -/
def shuffle (arr : List α) (seed : String) : List α :=
  drawAll (rngOfSeed seed) 0 arr

/-- Modelled from the spec: the seed passed to the shuffler is the persisted
client identity read from the name key when present, otherwise the fixed
fallback value the third-party shuffler substitutes for an absent seed. -/
def effectiveSeed : Option String → String
  | some s => s
  | none => "none"

/-- The sub-routine fetchAndUpdateCollection of lib/photos.ts: awaits
client.get, builds a cache entry stamped with Date.now(), issues a floating
(unawaited, best-effort) storage.setItem, and resolves with the entry. On a
fetch rejection the store is untouched. The returned pair is the resolved
entry together with the store as left by the write. -/
def fetchAndUpdateCollection (env : Env) (store : Store) :
    Except RemoteError (CollectionCache × Store) :=
  match env.remote with
  | .error e => .error e
  | .ok photos =>
    let cacheData : CollectionCache := ⟨photos, env.now⟩
    let storeAfter :=
      if env.setItemOk then { store with photoCollection := some cacheData }
      else store
    .ok (cacheData, storeAfter)

/-- The observable outcome of one call to getPhotos: the value the promise
settles with, the store it leaves behind, how many remote fetches were
awaited on the critical path, and whether a background refetch was started
(the floating fetchAndUpdateCollection call on the stale path). -/
structure GetPhotosResult where
  result : Except RemoteError (List UnsplashPhotoResource)
  store : Store
  fetchCount : Nat
  bgTriggered : Bool

/-- getPhotos of lib/photos.ts. Cache miss: await fetchAndUpdateCollection
and use its photos. Cache hit: read the entry; when Date.now() - updatedAt
is at least the TTL, start a background refetch without awaiting it; either
way resolve with the cached photos. The resolved collection is shuffled with
the persisted name as seed. -/
def getPhotos (env : Env) (store : Store) : GetPhotosResult :=
  match store.photoCollection with
  | none =>
    match fetchAndUpdateCollection env store with
    | .error e => ⟨.error e, store, 1, false⟩
    | .ok (cacheData, storeAfter) =>
      ⟨.ok (shuffle cacheData.photos (effectiveSeed storeAfter.name)),
        storeAfter, 1, false⟩
  | some cachedData =>
    let stale : Bool := decide ((env.now : Int) - cachedData.updatedAt ≥ env.ttlMs)
    ⟨.ok (shuffle cachedData.photos (effectiveSeed store.name)), store, 0, stale⟩

/-- The store as left by the background refetch started on the stale path:
the floating fetchAndUpdateCollection call runs under its own environment
(later clock, its own fetch outcome and write outcome); a rejection is
swallowed and leaves the store untouched. -/
def backgroundRefetch (env : Env) (store : Store) : Store :=
  match fetchAndUpdateCollection env store with
  | .error _ => store
  | .ok (_, storeAfter) => storeAfter

/-- Modelled from the spec: modIndex of lib/utils (not under the embedded
tree). The spec gives the formula ((index % length) + length) % length with
the % of the host language, whose remainder is truncated (it takes the sign
of the dividend), hence Int.tmod. -/
def modIndex (i : Int) (photos : List α) : Int :=
  ((i.tmod photos.length) + photos.length).tmod photos.length

/-- Modelled from the spec: sinceEpoch of lib/time with the days unit — the
number of whole days elapsed since the Unix epoch, computed in UTC from the
millisecond clock. -/
def sinceEpochDays (nowMs : Nat) : Nat :=
  nowMs / 86400000

/-- The index componentDidMount computes for the current UTC day:
modIndex(sinceEpoch(days), photos). -/
def dayIndex (nowMs : Nat) (photos : List α) : Int :=
  modIndex (sinceEpochDays nowMs) photos

/-- The slice of the Splash component state the core manipulates: the
shuffled collection and the rotation index. -/
structure SplashState where
  photos : List UnsplashPhotoResource
  index : Int
deriving DecidableEq

/-- The state componentDidMount establishes after getPhotos resolves with a
collection: the photos together with the day index. -/
def mountState (photos : List UnsplashPhotoResource) (nowMs : Nat) : SplashState :=
  ⟨photos, dayIndex nowMs photos⟩

/-- The left-arrow handler bound by enableKeyboardShortcuts: it stores
modIndex(prevState.index - 1, photos) as the new index. -/
def stepLeft (s : SplashState) : SplashState :=
  ⟨s.photos, modIndex (s.index - 1) s.photos⟩

/-- The right-arrow handler bound by enableKeyboardShortcuts: it stores
modIndex(prevState.index + 1, photos) as the new index. -/
def stepRight (s : SplashState) : SplashState :=
  ⟨s.photos, modIndex (s.index + 1) s.photos⟩

/-- Array subscripting with a possibly negative or out-of-range number, as
the host language performs it: any index outside [0, length) reads
undefined. -/
def jsGet (l : List α) (i : Int) : Option α :=
  if 0 ≤ i then l.get? i.toNat else none

/-- getPhoto of the Splash component: in development with a truthy src query
parameter it returns a mock record; otherwise it reads
this.state.photos[this.state.index] with no normalization of the index. -/
def getPhoto (dev : Bool) (querySrc : Option String) (s : SplashState) :
    Option UnsplashPhotoResource :=
  match querySrc with
  | some src =>
    if dev && src != "" then some ⟨"SRC", "black", src⟩
    else jsGet s.photos s.index
  | none => jsGet s.photos s.index

/-- States of the mounted component: the state established by
componentDidMount, closed under the two arrow-key handlers. -/
inductive Reachable (photos : List UnsplashPhotoResource) : SplashState → Prop
  | mount (nowMs : Nat) : Reachable photos (mountState photos nowMs)
  | left {s : SplashState} : Reachable photos s → Reachable photos (stepLeft s)
  | right {s : SplashState} : Reachable photos s → Reachable photos (stepRight s)

/-- A failed image load (the error event of the Image element, the condition
the spec calls ImageLoadError). -/
inductive ImageLoadError where
  | loadFailed (url : String)
deriving DecidableEq

/-- preloadImage of lib/photos.ts: creates an Image, sets its src and settles
with the load or error event; the outcome is the environment's verdict for
that URL. -/
def preloadImage (loads : String → Except ImageLoadError Unit)
    (imgUrl : String) : Except ImageLoadError Unit :=
  loads imgUrl

/-- Promise.all over already-determined outcomes: it resolves when every
promise resolves and otherwise rejects with a rejection of the list (the
first in list order stands in for the first in time). -/
def promiseAll : List (Except ImageLoadError Unit) → Except ImageLoadError Unit
  | [] => .ok ()
  | .error e :: _ => .error e
  | .ok () :: rest => promiseAll rest

/-- The observable outcome of preloadNeighboringPhotos: the settled value of
the returned promise and the URLs whose loading was started. A none outcome
is the TypeError thrown when the collection is empty and the subscript reads
undefined. -/
structure PreloadResult where
  outcome : Option (Except ImageLoadError Unit)
  issued : List String

/-- preloadNeighboringPhotos of the Splash component: it always starts a load
of the photo at modIndex(index + 1); in development it additionally starts a
load of the photo at modIndex(index - 1); the returned promise is Promise.all
of every load started, so every one of them is awaited. -/
def preloadNeighboringPhotos (dev : Bool)
    (loads : String → Except ImageLoadError Unit) (s : SplashState) :
    PreloadResult :=
  match jsGet s.photos (modIndex (s.index + 1) s.photos) with
  | none => ⟨none, []⟩
  | some nextPhoto =>
    if dev then
      match jsGet s.photos (modIndex (s.index - 1) s.photos) with
      | none => ⟨none, [nextPhoto.urlFull]⟩
      | some prevPhoto =>
        ⟨some (promiseAll [preloadImage loads nextPhoto.urlFull,
                           preloadImage loads prevPhoto.urlFull]),
          [nextPhoto.urlFull, prevPhoto.urlFull]⟩
    else
      ⟨some (promiseAll [preloadImage loads nextPhoto.urlFull]),
        [nextPhoto.urlFull]⟩

/-- A small concrete collection for witnesses and counterexamples: n photos
with distinct ids and URLs. -/
def samplePhotos (n : Nat) : List UnsplashPhotoResource :=
  (List.range n).map (fun k => ⟨toString k, "aabbcc", toString k⟩)

/-- The image-load environment used by the preload counterexample: the image
whose URL is the string 0 fails to load, every other image loads. -/
def cexLoads : String → Except ImageLoadError Unit :=
  fun u => if u = "0" then .error (.loadFailed "0") else .ok ()

theorem tmod_neg_left (a b : Int) : Int.tmod (-a) b = -(Int.tmod a b) := by
  rw [Int.tmod_def, Int.tmod_def, Int.neg_tdiv, Int.mul_neg]
  ring

/-- The truncated-remainder normalization formula agrees with the Euclidean
remainder for a positive modulus. -/
theorem tmod_add_tmod_eq_emod (i L : Int) (hL : 0 < L) :
    ((Int.tmod i L) + L).tmod L = i % L := by
  rcases le_or_lt 0 i with hi | hi
  · have h1 : Int.tmod i L = i % L := Int.tmod_eq_emod hi (le_of_lt hL)
    have h2 : 0 ≤ i % L := Int.emod_nonneg i (by omega)
    have h3 : Int.tmod (i % L + L) L = (i % L + L) % L :=
      Int.tmod_eq_emod (by omega) (le_of_lt hL)
    rw [h1, h3, Int.add_emod_self]
    exact Int.emod_emod_of_dvd i dvd_rfl
  · have hni : (0 : Int) ≤ -i := by omega
    have h1 : Int.tmod (-i) L = (-i) % L := Int.tmod_eq_emod hni (le_of_lt hL)
    have h2 : Int.tmod i L = -((-i) % L) := by
      have h0 := tmod_neg_left (-i) L
      rw [Int.neg_neg] at h0
      rw [h0, h1]
    have h3 : 0 ≤ (-i) % L := Int.emod_nonneg _ (by omega)
    have h4 : (-i) % L < L := Int.emod_lt_of_pos _ hL
    have h5 : Int.tmod (-((-i) % L) + L) L = (-((-i) % L) + L) % L :=
      Int.tmod_eq_emod (by omega) (le_of_lt hL)
    have hm : Int.ModEq L ((-i) % L) (-i) := Int.emod_emod_of_dvd (-i) dvd_rfl
    have hm2 := hm.neg
    rw [Int.neg_neg] at hm2
    rw [h2, h5, Int.add_emod_self]
    exact hm2

theorem modIndex_eq_emod (i : Int) (l : List α) (h : l ≠ []) :
    modIndex i l = i % (l.length : Int) := by
  have hL : (0 : Int) < l.length := by
    have := List.length_pos.mpr h
    exact_mod_cast this
  exact tmod_add_tmod_eq_emod i (l.length : Int) hL

theorem modIndex_nonneg (i : Int) (l : List α) (h : l ≠ []) :
    0 ≤ modIndex i l := by
  rw [modIndex_eq_emod i l h]
  apply Int.emod_nonneg
  have := List.length_pos.mpr h
  omega

theorem modIndex_lt (i : Int) (l : List α) (h : l ≠ []) :
    modIndex i l < (l.length : Int) := by
  rw [modIndex_eq_emod i l h]
  apply Int.emod_lt_of_pos
  have := List.length_pos.mpr h
  exact_mod_cast this

theorem cons_eraseIdx_perm (d : α) :
    ∀ (l : List α) (i : Nat), i < l.length → l.Perm (l.getD i d :: l.eraseIdx i)
  | [], i, h => by simp at h
  | a :: t, 0, _ => by simp
  | a :: t, i + 1, h => by
    have h' : i < t.length := by simpa using h
    have ih := cons_eraseIdx_perm d t i h'
    simp only [List.getD_cons_succ, List.eraseIdx_cons_succ]
    exact (ih.cons a).trans (List.Perm.swap _ a _)

theorem drawAll_perm_aux (rng : Nat → Nat) :
    ∀ (n step : Nat) (l : List α), l.length ≤ n → (drawAll rng step l).Perm l := by
  intro n
  induction n with
  | zero =>
    intro step l h
    have hnil : l = [] := by
      cases l with
      | nil => rfl
      | cons a t => simp at h
    subst hnil
    simp [drawAll]
  | succ n ih =>
    intro step l h
    match l with
    | [] => simp [drawAll]
    | a :: rest =>
      rw [drawAll]
      have hr : rng step % (a :: rest).length < (a :: rest).length :=
        Nat.mod_lt _ (by simp)
      have hlen : ((a :: rest).eraseIdx (rng step % (a :: rest).length)).length ≤ n := by
        rw [List.length_eraseIdx_of_lt hr]
        simpa using h
      have ihp := ih (step + 1) ((a :: rest).eraseIdx (rng step % (a :: rest).length)) hlen
      exact (ihp.cons _).trans (cons_eraseIdx_perm a _ _ hr).symm

/-- shuffle(collection, seed) is a permutation of the collection. -/
theorem shuffle_perm (arr : List α) (seed : String) : (shuffle arr seed).Perm arr :=
  drawAll_perm_aux (rngOfSeed seed) arr.length 0 arr (Nat.le_refl _)

theorem shuffle_singleton (a : α) (seed : String) : shuffle [a] seed = [a] := by
  simp [shuffle, drawAll, Nat.mod_one]

theorem promiseAll_singleton (x : Except ImageLoadError Unit) :
    promiseAll [x] = x := by
  match x with
  | .error e => rfl
  | .ok () => rfl

theorem jsGet_isSome (l : List α) (i : Int) (h0 : 0 ≤ i) (hl : i < (l.length : Int)) :
    (jsGet l i).isSome = true := by
  rw [jsGet, if_pos h0]
  have ht : i.toNat < l.length := by omega
  simp [List.get?_eq_getElem?, List.getElem?_eq_getElem ht]

/-- Claim C1 as stated is falsified by the best-effort persistence write: a
background refetch whose remote fetch succeeds but whose storage.setItem
write fails (the write is floating and best-effort) leaves the stored entry
unchanged, while the claim promises an overwrite on refetch success. -/
theorem claim_C1_counterexample :
    backgroundRefetch ⟨.ok (samplePhotos 2), 10000000, 3600000, false⟩
        ⟨some ⟨samplePhotos 1, 0⟩, none⟩
      = ⟨some ⟨samplePhotos 1, 0⟩, none⟩ ∧
    (⟨.ok (samplePhotos 2), 10000000, 3600000, false⟩ : Env).remote
      = .ok (samplePhotos 2) ∧
    (⟨some ⟨samplePhotos 1, 0⟩, none⟩ : Store).photoCollection
      ≠ some ⟨samplePhotos 2, 10000000⟩ := by
  refine ⟨rfl, rfl, ?_⟩
  decide

/-- Claim C1 (amended): for a stale cache entry, getPhotos resolves
immediately with the existing entry's photos (shuffled) without touching the
store or awaiting any fetch, and marks a background refetch; the background
refetch overwrites the stored entry with the fresh photos and its own clock
value when both its remote fetch and its persistence write succeed, and
leaves the stored entry unchanged when the remote fetch fails or the
persistence write fails. -/
theorem claim_C1 (env bgEnv : Env) (store : Store) (cache : CollectionCache)
    (hc : store.photoCollection = some cache)
    (hstale : (env.now : Int) - cache.updatedAt ≥ env.ttlMs) :
    (getPhotos env store).result
      = .ok (shuffle cache.photos (effectiveSeed store.name)) ∧
    (getPhotos env store).store = store ∧
    (getPhotos env store).fetchCount = 0 ∧
    (getPhotos env store).bgTriggered = true ∧
    (∀ fresh, bgEnv.remote = .ok fresh → bgEnv.setItemOk = true →
      backgroundRefetch bgEnv store
        = { store with photoCollection := some ⟨fresh, bgEnv.now⟩ }) ∧
    (∀ e, bgEnv.remote = .error e → backgroundRefetch bgEnv store = store) ∧
    (bgEnv.setItemOk = false → backgroundRefetch bgEnv store = store) := by
  refine ⟨?_, ?_, ?_, ?_, ?_, ?_, ?_⟩
  · simp [getPhotos, hc]
  · simp [getPhotos, hc]
  · simp [getPhotos, hc]
  · simp [getPhotos, hc, hstale]
  · intro fresh hrem hset
    simp [backgroundRefetch, fetchAndUpdateCollection, hrem, hset]
  · intro e hrem
    simp [backgroundRefetch, fetchAndUpdateCollection, hrem]
  · intro hset
    cases hrem : bgEnv.remote with
    | error e => simp [backgroundRefetch, fetchAndUpdateCollection, hrem]
    | ok fresh => simp [backgroundRefetch, fetchAndUpdateCollection, hrem, hset]

theorem claim_C1_witness :
    (getPhotos ⟨.ok [], 10, 5, true⟩ ⟨some ⟨samplePhotos 1, 0⟩, none⟩).result
      = .ok (shuffle (samplePhotos 1) (effectiveSeed none)) ∧
    (getPhotos ⟨.ok [], 10, 5, true⟩ ⟨some ⟨samplePhotos 1, 0⟩, none⟩).store
      = ⟨some ⟨samplePhotos 1, 0⟩, none⟩ ∧
    (getPhotos ⟨.ok [], 10, 5, true⟩ ⟨some ⟨samplePhotos 1, 0⟩, none⟩).fetchCount = 0 ∧
    (getPhotos ⟨.ok [], 10, 5, true⟩ ⟨some ⟨samplePhotos 1, 0⟩, none⟩).bgTriggered = true ∧
    (∀ fresh, (⟨.ok (samplePhotos 2), 99, 5, true⟩ : Env).remote = .ok fresh →
      (⟨.ok (samplePhotos 2), 99, 5, true⟩ : Env).setItemOk = true →
      backgroundRefetch ⟨.ok (samplePhotos 2), 99, 5, true⟩ ⟨some ⟨samplePhotos 1, 0⟩, none⟩
        = { (⟨some ⟨samplePhotos 1, 0⟩, none⟩ : Store) with
              photoCollection := some ⟨fresh, 99⟩ }) ∧
    (∀ e, (⟨.ok (samplePhotos 2), 99, 5, true⟩ : Env).remote = .error e →
      backgroundRefetch ⟨.ok (samplePhotos 2), 99, 5, true⟩ ⟨some ⟨samplePhotos 1, 0⟩, none⟩
        = ⟨some ⟨samplePhotos 1, 0⟩, none⟩) ∧
    ((⟨.ok (samplePhotos 2), 99, 5, true⟩ : Env).setItemOk = false →
      backgroundRefetch ⟨.ok (samplePhotos 2), 99, 5, true⟩ ⟨some ⟨samplePhotos 1, 0⟩, none⟩
        = ⟨some ⟨samplePhotos 1, 0⟩, none⟩) :=
  claim_C1 ⟨.ok [], 10, 5, true⟩ ⟨.ok (samplePhotos 2), 99, 5, true⟩
    ⟨some ⟨samplePhotos 1, 0⟩, none⟩ ⟨samplePhotos 1, 0⟩ rfl (by decide)

/-- Claim C9: for a fresh cache entry (age strictly below the TTL), getPhotos
performs no remote fetch, starts no background refetch, leaves the store
unchanged, and resolves with the cached photos (shuffled). -/
theorem claim_C9 (env : Env) (store : Store) (cache : CollectionCache)
    (hc : store.photoCollection = some cache)
    (hfresh : (env.now : Int) - cache.updatedAt < env.ttlMs) :
    (getPhotos env store).fetchCount = 0 ∧
    (getPhotos env store).bgTriggered = false ∧
    (getPhotos env store).store = store ∧
    (getPhotos env store).result
      = .ok (shuffle cache.photos (effectiveSeed store.name)) := by
  refine ⟨?_, ?_, ?_, ?_⟩
  · simp [getPhotos, hc]
  · simp [getPhotos, hc]
    omega
  · simp [getPhotos, hc]
  · simp [getPhotos, hc]

theorem claim_C9_witness :
    (getPhotos ⟨.ok [], 10, 50, true⟩ ⟨some ⟨samplePhotos 1, 0⟩, none⟩).fetchCount = 0 ∧
    (getPhotos ⟨.ok [], 10, 50, true⟩ ⟨some ⟨samplePhotos 1, 0⟩, none⟩).bgTriggered = false ∧
    (getPhotos ⟨.ok [], 10, 50, true⟩ ⟨some ⟨samplePhotos 1, 0⟩, none⟩).store
      = ⟨some ⟨samplePhotos 1, 0⟩, none⟩ ∧
    (getPhotos ⟨.ok [], 10, 50, true⟩ ⟨some ⟨samplePhotos 1, 0⟩, none⟩).result
      = .ok (shuffle (samplePhotos 1) (effectiveSeed none)) :=
  claim_C9 ⟨.ok [], 10, 50, true⟩ ⟨some ⟨samplePhotos 1, 0⟩, none⟩
    ⟨samplePhotos 1, 0⟩ rfl (by decide)

/-- Claim C7: on a cache miss, getPhotos performs exactly one remote fetch on
the critical path, starts no background refetch, resolves with the fetched
photos (shuffled, a permutation of them), persists them with updatedAt equal
to the current clock when the best-effort write succeeds, and still resolves
with the same photos when the persistence write fails. -/
theorem claim_C7 (env : Env) (store : Store) (photos : List UnsplashPhotoResource)
    (hc : store.photoCollection = none) (hrem : env.remote = .ok photos) :
    (getPhotos env store).fetchCount = 1 ∧
    (getPhotos env store).bgTriggered = false ∧
    (getPhotos env store).result
      = .ok (shuffle photos (effectiveSeed store.name)) ∧
    (shuffle photos (effectiveSeed store.name)).Perm photos ∧
    (env.setItemOk = true →
      (getPhotos env store).store
        = { store with photoCollection := some ⟨photos, env.now⟩ }) ∧
    (env.setItemOk = false → (getPhotos env store).store = store) := by
  refine ⟨?_, ?_, ?_, shuffle_perm _ _, ?_, ?_⟩
  · simp [getPhotos, hc, fetchAndUpdateCollection, hrem]
  · simp [getPhotos, hc, fetchAndUpdateCollection, hrem]
  · cases h : env.setItemOk <;>
      simp [getPhotos, hc, fetchAndUpdateCollection, hrem, h]
  · intro h
    simp [getPhotos, hc, fetchAndUpdateCollection, hrem, h]
  · intro h
    simp [getPhotos, hc, fetchAndUpdateCollection, hrem, h]

theorem claim_C7_witness :
    (getPhotos ⟨.ok (samplePhotos 1), 7, 50, true⟩ ⟨none, none⟩).fetchCount = 1 ∧
    (getPhotos ⟨.ok (samplePhotos 1), 7, 50, true⟩ ⟨none, none⟩).bgTriggered = false ∧
    (getPhotos ⟨.ok (samplePhotos 1), 7, 50, true⟩ ⟨none, none⟩).result
      = .ok (shuffle (samplePhotos 1) (effectiveSeed none)) ∧
    (shuffle (samplePhotos 1) (effectiveSeed none)).Perm (samplePhotos 1) ∧
    ((⟨.ok (samplePhotos 1), 7, 50, true⟩ : Env).setItemOk = true →
      (getPhotos ⟨.ok (samplePhotos 1), 7, 50, true⟩ ⟨none, none⟩).store
        = { (⟨none, none⟩ : Store) with photoCollection := some ⟨samplePhotos 1, 7⟩ }) ∧
    ((⟨.ok (samplePhotos 1), 7, 50, true⟩ : Env).setItemOk = false →
      (getPhotos ⟨.ok (samplePhotos 1), 7, 50, true⟩ ⟨none, none⟩).store = ⟨none, none⟩) :=
  claim_C7 ⟨.ok (samplePhotos 1), 7, 50, true⟩ ⟨none, none⟩ (samplePhotos 1) rfl rfl

/-- Claim C8: on a cache miss with a failing remote fetch, getPhotos rejects
with the fetch failure (the condition the spec names SourceUnavailable),
persists nothing (the store is unchanged), performs the single failing fetch,
and schedules no retry. -/
theorem claim_C8 (env : Env) (store : Store) (e : RemoteError)
    (hc : store.photoCollection = none) (hrem : env.remote = .error e) :
    (getPhotos env store).result = .error e ∧
    (getPhotos env store).store = store ∧
    (getPhotos env store).fetchCount = 1 ∧
    (getPhotos env store).bgTriggered = false := by
  refine ⟨?_, ?_, ?_, ?_⟩ <;>
    simp [getPhotos, hc, fetchAndUpdateCollection, hrem]

theorem claim_C8_witness :
    (getPhotos ⟨.error (.sourceUnavailable "down"), 7, 50, true⟩ ⟨none, none⟩).result
      = .error (.sourceUnavailable "down") ∧
    (getPhotos ⟨.error (.sourceUnavailable "down"), 7, 50, true⟩ ⟨none, none⟩).store
      = ⟨none, none⟩ ∧
    (getPhotos ⟨.error (.sourceUnavailable "down"), 7, 50, true⟩ ⟨none, none⟩).fetchCount = 1 ∧
    (getPhotos ⟨.error (.sourceUnavailable "down"), 7, 50, true⟩ ⟨none, none⟩).bgTriggered = false :=
  claim_C8 ⟨.error (.sourceUnavailable "down"), 7, 50, true⟩ ⟨none, none⟩
    (.sourceUnavailable "down") rfl rfl

/-- Claim C5 as stated is falsified by a remote source that returns an empty
collection: getPhotos performs no emptiness check, so on an empty store with
a successful empty fetch it resolves successfully with the empty list. -/
theorem claim_C5_counterexample :
    (getPhotos ⟨.ok [], 0, 1000, true⟩ ⟨none, none⟩).result
      = .ok ([] : List UnsplashPhotoResource) := by
  simp [getPhotos, fetchAndUpdateCollection, shuffle, drawAll]

/-- Claim C5 (amended): getPhotos never introduces emptiness — whenever every
collection it can draw from is non-empty (a cached entry's photos and any
successfully fetched remote collection), a successful result is non-empty.
The code itself performs no emptiness check, so the guarantee is conditional
on its sources. -/
theorem claim_C5 (env : Env) (store : Store) (ps : List UnsplashPhotoResource)
    (hcache : ∀ c, store.photoCollection = some c → c.photos ≠ [])
    (hremote : ∀ l, env.remote = .ok l → l ≠ [])
    (hok : (getPhotos env store).result = .ok ps) :
    ps ≠ [] := by
  cases hc : store.photoCollection with
  | some cache =>
    have hres : (getPhotos env store).result
        = .ok (shuffle cache.photos (effectiveSeed store.name)) := by
      simp [getPhotos, hc]
    rw [hres] at hok
    have hps : ps = shuffle cache.photos (effectiveSeed store.name) := by
      cases hok
      rfl
    subst hps
    have hlen := (shuffle_perm cache.photos (effectiveSeed store.name)).length_eq
    have hne := hcache cache hc
    intro hnil
    apply hne
    rw [hnil] at hlen
    exact List.length_eq_zero.mp hlen.symm
  | none =>
    cases hrem : env.remote with
    | error e =>
      have : (getPhotos env store).result = .error e := by
        simp [getPhotos, hc, fetchAndUpdateCollection, hrem]
      rw [this] at hok
      cases hok
    | ok l =>
      have hres : (getPhotos env store).result
          = .ok (shuffle l (effectiveSeed store.name)) := by
        cases h : env.setItemOk <;>
          simp [getPhotos, hc, fetchAndUpdateCollection, hrem, h]
      rw [hres] at hok
      have hps : ps = shuffle l (effectiveSeed store.name) := by
        cases hok
        rfl
      subst hps
      have hlen := (shuffle_perm l (effectiveSeed store.name)).length_eq
      have hne := hremote l hrem
      intro hnil
      apply hne
      rw [hnil] at hlen
      exact List.length_eq_zero.mp hlen.symm

theorem claim_C5_witness :
    samplePhotos 1 ≠ [] :=
  claim_C5 ⟨.ok (samplePhotos 1), 0, 5, true⟩ ⟨none, none⟩ (samplePhotos 1)
    (by intro c hcon; cases hcon)
    (by intro l h; cases h; decide)
    (by
      rw [show samplePhotos 1 = [⟨"0", "aabbcc", "0"⟩] from rfl]
      simp [getPhotos, fetchAndUpdateCollection, shuffle_singleton])

/-- Claim C2: shuffle(C, S) is a permutation of C for every collection and
seed; it is a pure function of (C, S), so equal inputs give the identical
output order; and getPhotos seeds it with the persisted client identity when
the name key is present and with the fixed fallback value otherwise. -/
theorem claim_C2 (C : List UnsplashPhotoResource) (S : String)
    (env : Env) (store : Store) (cache : CollectionCache)
    (hc : store.photoCollection = some cache) :
    (shuffle C S).Perm C ∧
    shuffle C S = shuffle C S ∧
    (∀ s : String, effectiveSeed (some s) = s) ∧
    effectiveSeed none = "none" ∧
    (getPhotos env store).result
      = .ok (shuffle cache.photos (effectiveSeed store.name)) := by
  refine ⟨shuffle_perm C S, rfl, fun s => rfl, rfl, ?_⟩
  simp [getPhotos, hc]

theorem claim_C2_witness :
    (shuffle (samplePhotos 2) "alice").Perm (samplePhotos 2) ∧
    shuffle (samplePhotos 2) "alice" = shuffle (samplePhotos 2) "alice" ∧
    (∀ s : String, effectiveSeed (some s) = s) ∧
    effectiveSeed none = "none" ∧
    (getPhotos ⟨.ok [], 0, 50, true⟩ ⟨some ⟨samplePhotos 1, 0⟩, some "alice"⟩).result
      = .ok (shuffle (samplePhotos 1) (effectiveSeed (some "alice"))) :=
  claim_C2 (samplePhotos 2) "alice" ⟨.ok [], 0, 50, true⟩
    ⟨some ⟨samplePhotos 1, 0⟩, some "alice"⟩ ⟨samplePhotos 1, 0⟩ rfl

/-- Claim C3: for a non-empty collection the day index equals the number of
whole UTC days since the Unix epoch modulo the collection length, lies in
[0, length), is the same for any two clock values within the same UTC
calendar day, and advances by exactly one position modulo the length (hence
wrapping from the collection end to 0) at the UTC day boundary. -/
theorem claim_C3 (photos : List UnsplashPhotoResource) (hne : photos ≠ [])
    (n1 n2 m : Nat) (hday : n1 / 86400000 = n2 / 86400000)
    (hnext : sinceEpochDays m = sinceEpochDays n1 + 1) :
    dayIndex n1 photos = ((sinceEpochDays n1 % photos.length : Nat) : Int) ∧
    0 ≤ dayIndex n1 photos ∧
    dayIndex n1 photos < (photos.length : Int) ∧
    dayIndex n1 photos = dayIndex n2 photos ∧
    dayIndex m photos = (dayIndex n1 photos + 1) % (photos.length : Int) := by
  have hL : 0 < photos.length := List.length_pos.mpr hne
  have hform : ∀ k : Nat, dayIndex k photos = ((sinceEpochDays k % photos.length : Nat) : Int) := by
    intro k
    rw [dayIndex, modIndex_eq_emod _ _ hne]
    push_cast
    rfl
  refine ⟨hform n1, modIndex_nonneg _ _ hne, modIndex_lt _ _ hne, ?_, ?_⟩
  · have h12 : sinceEpochDays n1 = sinceEpochDays n2 := hday
    rw [hform n1, hform n2, h12]
  · rw [hform m, hform n1, hnext]
    have hstep : (sinceEpochDays n1 + 1) % photos.length
        = (sinceEpochDays n1 % photos.length + 1) % photos.length := by
      conv_rhs => rw [Nat.add_mod]
      conv_lhs => rw [Nat.add_mod]
      rw [Nat.mod_mod_of_dvd _ dvd_rfl]
    rw [hstep]
    push_cast
    rfl

theorem claim_C3_witness :
    dayIndex 1000 (samplePhotos 2) = ((sinceEpochDays 1000 % (samplePhotos 2).length : Nat) : Int) ∧
    0 ≤ dayIndex 1000 (samplePhotos 2) ∧
    dayIndex 1000 (samplePhotos 2) < ((samplePhotos 2).length : Int) ∧
    dayIndex 1000 (samplePhotos 2) = dayIndex 2000 (samplePhotos 2) ∧
    dayIndex 86400000 (samplePhotos 2)
      = (dayIndex 1000 (samplePhotos 2) + 1) % (((samplePhotos 2).length : Nat) : Int) :=
  claim_C3 (samplePhotos 2) (by decide) 1000 2000 86400000 rfl rfl

/-- Claim C4 as stated is falsified twice by preloadNeighboringPhotos. In
development, the index-1 preload is awaited through Promise.all: with a
3-photo collection at index 1, the index+1 image (URL 2) loads fine yet the
operation rejects because the index-1 image (URL 0) fails, so the outcome is
not independent of the index-1 preload. In production no index-1 preload is
issued at all. -/
theorem claim_C4_counterexample :
    preloadImage cexLoads "2" = .ok () ∧
    (preloadNeighboringPhotos true cexLoads ⟨samplePhotos 3, 1⟩).outcome
      = some (.error (.loadFailed "0")) ∧
    (preloadNeighboringPhotos false cexLoads ⟨samplePhotos 3, 1⟩).issued = ["2"] := by
  refine ⟨rfl, rfl, rfl⟩

/-- Claim C4 (amended): in production exactly one preload is issued, for the
image at the normalized index+1, and the operation settles with that image's
outcome; in development an index-1 preload is additionally issued and awaited
through Promise.all, so the outcome is the conjunction of both loads and a
failure of either rejects it. -/
theorem claim_C4 (loads : String → Except ImageLoadError Unit) (s : SplashState)
    (nextPhoto prevPhoto : UnsplashPhotoResource)
    (hnext : jsGet s.photos (modIndex (s.index + 1) s.photos) = some nextPhoto)
    (hprev : jsGet s.photos (modIndex (s.index - 1) s.photos) = some prevPhoto) :
    (preloadNeighboringPhotos false loads s).outcome = some (loads nextPhoto.urlFull) ∧
    (preloadNeighboringPhotos false loads s).issued = [nextPhoto.urlFull] ∧
    (preloadNeighboringPhotos true loads s).outcome
      = some (promiseAll [loads nextPhoto.urlFull, loads prevPhoto.urlFull]) ∧
    (preloadNeighboringPhotos true loads s).issued
      = [nextPhoto.urlFull, prevPhoto.urlFull] := by
  refine ⟨?_, ?_, ?_, ?_⟩ <;>
    simp [preloadNeighboringPhotos, hnext, hprev, preloadImage, promiseAll_singleton]

theorem claim_C4_witness :
    (preloadNeighboringPhotos false (fun _ => .ok ()) ⟨samplePhotos 3, 1⟩).outcome
      = some ((fun _ => (.ok () : Except ImageLoadError Unit)) "2") ∧
    (preloadNeighboringPhotos false (fun _ => .ok ()) ⟨samplePhotos 3, 1⟩).issued = ["2"] ∧
    (preloadNeighboringPhotos true (fun _ => .ok ()) ⟨samplePhotos 3, 1⟩).outcome
      = some (promiseAll [(fun _ => (.ok () : Except ImageLoadError Unit)) "2",
          (fun _ => (.ok () : Except ImageLoadError Unit)) "0"]) ∧
    (preloadNeighboringPhotos true (fun _ => .ok ()) ⟨samplePhotos 3, 1⟩).issued
      = ["2", "0"] :=
  claim_C4 (fun _ => .ok ()) ⟨samplePhotos 3, 1⟩ ⟨"2", "aabbcc", "2"⟩ ⟨"0", "aabbcc", "0"⟩
    rfl rfl

/-- Claim C6 as stated is falsified at both ends: with a 5-photo collection
at index 0, the left-arrow handler stores 4 — the value is normalized by
modIndex at write time, not stored as the raw 0 - 1 — and getPhoto performs
no normalization at read time: reading a state whose index is -1 yields
undefined rather than the photo at position 4. -/
theorem claim_C6_counterexample :
    (stepLeft ⟨samplePhotos 5, 0⟩).index = 4 ∧
    (stepLeft ⟨samplePhotos 5, 0⟩).index ≠ (0 : Int) - 1 ∧
    getPhoto false none ⟨samplePhotos 5, -1⟩ = none := by
  refine ⟨rfl, by decide, rfl⟩

/-- Claim C6 (amended): manual navigation stores an index already normalized
by modIndex — each arrow-key write stores modIndex(index ± 1, photos), which
for a non-empty collection lies in [0, length) — and the consumer getPhoto
reads state.photos[state.index] raw, with no normalization at read time. -/
theorem claim_C6 (s : SplashState) (hne : s.photos ≠ []) :
    (stepLeft s).index = modIndex (s.index - 1) s.photos ∧
    (stepRight s).index = modIndex (s.index + 1) s.photos ∧
    0 ≤ (stepLeft s).index ∧
    (stepLeft s).index < (s.photos.length : Int) ∧
    0 ≤ (stepRight s).index ∧
    (stepRight s).index < (s.photos.length : Int) ∧
    getPhoto false none s = jsGet s.photos s.index := by
  exact ⟨rfl, rfl, modIndex_nonneg _ _ hne, modIndex_lt _ _ hne,
    modIndex_nonneg _ _ hne, modIndex_lt _ _ hne, rfl⟩

theorem claim_C6_witness :
    (stepLeft ⟨samplePhotos 5, 2⟩).index = modIndex ((2 : Int) - 1) (samplePhotos 5) ∧
    (stepRight ⟨samplePhotos 5, 2⟩).index = modIndex ((2 : Int) + 1) (samplePhotos 5) ∧
    0 ≤ (stepLeft ⟨samplePhotos 5, 2⟩).index ∧
    (stepLeft ⟨samplePhotos 5, 2⟩).index < ((samplePhotos 5).length : Int) ∧
    0 ≤ (stepRight ⟨samplePhotos 5, 2⟩).index ∧
    (stepRight ⟨samplePhotos 5, 2⟩).index < ((samplePhotos 5).length : Int) ∧
    getPhoto false none ⟨samplePhotos 5, 2⟩ = jsGet (samplePhotos 5) 2 :=
  claim_C6 ⟨samplePhotos 5, 2⟩ (by decide)

/-- Claim C10: in every state of the mounted component — the state written by
componentDidMount and any state produced from it by arrow-key navigation —
the stored index is already normalized, so for a non-empty collection it lies
in [0, photos.length) and the raw, non-normalizing read in getPhoto is in
bounds. -/
theorem claim_C10 (photos : List UnsplashPhotoResource) (hne : photos ≠ [])
    (s : SplashState) (hs : Reachable photos s) :
    s.photos = photos ∧
    0 ≤ s.index ∧
    s.index < (photos.length : Int) ∧
    (getPhoto false none s).isSome = true := by
  have key : s.photos = photos ∧ 0 ≤ s.index ∧ s.index < (photos.length : Int) := by
    induction hs with
    | mount nowMs =>
      simp only [mountState, dayIndex]
      exact ⟨trivial, modIndex_nonneg _ _ hne, modIndex_lt _ _ hne⟩
    | left h ih =>
      rename_i s'
      have hp : s'.photos = photos := ih.1
      simp only [stepLeft]
      refine ⟨hp, ?_, ?_⟩
      · rw [hp]
        exact modIndex_nonneg _ _ hne
      · rw [hp]
        exact modIndex_lt _ _ hne
    | right h ih =>
      rename_i s'
      have hp : s'.photos = photos := ih.1
      simp only [stepRight]
      refine ⟨hp, ?_, ?_⟩
      · rw [hp]
        exact modIndex_nonneg _ _ hne
      · rw [hp]
        exact modIndex_lt _ _ hne
  refine ⟨key.1, key.2.1, key.2.2, ?_⟩
  rw [getPhoto]
  have := jsGet_isSome s.photos s.index key.2.1 (by rw [key.1]; exact key.2.2)
  exact this

theorem claim_C10_witness :
    (mountState (samplePhotos 1) 0).photos = samplePhotos 1 ∧
    0 ≤ (mountState (samplePhotos 1) 0).index ∧
    (mountState (samplePhotos 1) 0).index < ((samplePhotos 1).length : Int) ∧
    (getPhoto false none (mountState (samplePhotos 1) 0)).isSome = true :=
  claim_C10 (samplePhotos 1) (by decide) (mountState (samplePhotos 1) 0)
    (Reachable.mount 0)

end Frontlawn
